import Mathlib

/-!
Verification of the Flask text-to-speech starter (`app.py`) against its
natural-language specification.

The embedding below translates the session-auth subsystem (nonce store,
JWT session issuer, session verifier) and the synthesis endpoint of
`app.py` into Lean.  Python's wall clock (`time.time()`) becomes an
explicit `now : Nat` argument; randomness (`secrets.token_hex`) becomes an
explicit nonce argument; the mutable module-level dict `session_nonces`
becomes an explicit store value threaded through the operations; PyJWT's
HS256 signing is modelled symbolically (a signed token records the exact
secret it was signed with, and verification compares secrets — the
standard unforgeable-MAC idealization); Python exceptions become an
`Except` with the exception class distinguished, since the handler's
`except ValueError` / `except Exception` branches dispatch on it.
-/

/-- Default TTS model (`DEFAULT_MODEL = "aura-2-thalia-en"`, app.py line 34). -/
def DEFAULT_MODEL : String := "aura-2-thalia-en"

/-- Nonce time-to-live in seconds (`NONCE_TTL = 5 * 60`, app.py line 51). -/
def NONCE_TTL : Nat := 5 * 60

/-- JWT expiry in seconds (`JWT_EXPIRY = 3600`, app.py line 52). -/
def JWT_EXPIRY : Nat := 3600

/-- Configuration line 47: `REQUIRE_NONCE = bool(os.environ.get("SESSION_SECRET"))`.
`env` is the value of the `SESSION_SECRET` environment variable (`none` when
unset); Python truthiness of a string is non-emptiness. -/
def REQUIRE_NONCE_of (env : Option String) : Bool :=
  match env with
  | Option.none => false
  | Option.some s => s ≠ ""

/-- Configuration line 46:
`SESSION_SECRET = os.environ.get("SESSION_SECRET") or secrets.token_hex(32)`.
`generated` stands for the random `secrets.token_hex(32)` fallback. -/
def SESSION_SECRET_of (env : Option String) (generated : String) : String :=
  match env with
  | Option.none => generated
  | Option.some s => if s = "" then generated else s

/-- The in-memory nonce store `session_nonces : dict[str, float]` (app.py
line 50), modelled extensionally as a partial map from nonce to expiry. -/
def Store : Type := String → Option Nat

/-- app.py lines 55-59, `generate_nonce()`: stores `nonce -> now + NONCE_TTL`.
The randomly drawn `secrets.token_hex(16)` value is the explicit `nonce`
argument here. -/
def generate_nonce (nonce : String) (s : Store) (now : Nat) : Store :=
  fun k => if k = nonce then some (now + NONCE_TTL) else s k

/-- app.py lines 62-67, `consume_nonce(nonce)`:
`expiry = session_nonces.pop(nonce, None)`; absent entry returns `False`;
otherwise the entry is removed and the result is `time.time() < expiry`.
Returns the boolean result together with the updated store. -/
def consume_nonce (nonce : String) (s : Store) (now : Nat) : Bool × Store :=
  match s nonce with
  | Option.none => (false, s)
  | Option.some expiry => (decide (now < expiry), fun k => if k = nonce then none else s k)

/-- app.py lines 70-75, `cleanup_nonces()`: deletes every entry with
`now >= expiry`. -/
def cleanup_nonces (s : Store) (now : Nat) : Store :=
  fun k =>
    match s k with
    | Option.none => none
    | Option.some v => if now ≥ v then none else some v

/-- JWT payload minted by `get_session`: `{"iat": ..., "exp": ...}`
(app.py line 194). -/
structure Payload where
  iat : Nat
  exp : Nat
deriving DecidableEq

/-- Symbolic model of a serialized JWT string: either a well-formed HS256
token (recording its payload and the secret that signed it — the
unforgeable-MAC idealization of HMAC) or a malformed string that is not a
JWT at all. -/
inductive JwtToken where
| valid (payload : Payload) (secret : String)
| garbage (raw : String)
deriving DecidableEq

/-- Outcome of `jwt.decode(token, secret, algorithms=["HS256"])`. -/
inductive DecodeResult where
| ok (p : Payload)
| expired
| invalid
deriving DecidableEq

/-- PyJWT `jwt.decode` for HS256: a malformed token raises
`InvalidTokenError` (`DecodeError`); a signature mismatch raises
`InvalidTokenError` (`InvalidSignatureError`); only then is the `exp`
claim checked (PyJWT `_validate_exp`: `exp <= now` raises
`ExpiredSignatureError`), so the token is accepted exactly when the
secret matches and `now < exp`. -/
def jwtDecode (tok : JwtToken) (secret : String) (now : Nat) : DecodeResult :=
  match tok with
  | JwtToken.garbage _ => DecodeResult.invalid
  | JwtToken.valid p s =>
    if s = secret then
      if p.exp ≤ now then DecodeResult.expired else DecodeResult.ok p
    else DecodeResult.invalid

/-- The uniform error body `{"error": {"type": ..., "code": ..., "message": ...}}`. -/
structure ErrorInfo where
  etype : String
  code : String
  message : String
deriving DecidableEq

/-- Result of the `require_session` decorator on one request: either the
wrapped handler runs, or the request is rejected with a status and error
body before the handler is reached. -/
inductive SessionCheck where
| proceed
| reject (status : Nat) (e : ErrorInfo)
deriving DecidableEq

/-- app.py lines 87-120, the `require_session` decorator.
`auth_header = request.headers.get("Authorization", "")`; the
`startswith("Bearer ")` test and the `[7:]` slice are on the character
sequence; `tokOf` interprets the remaining characters as a candidate JWT
(the deserialization side of the symbolic token model). -/
def require_session (authHeader : Option String) (tokOf : String → JwtToken)
    (secret : String) (now : Nat) : SessionCheck :=
  let auth_header := authHeader.getD ""
  if "Bearer ".data.isPrefixOf auth_header.data then
    let token : String := ⟨auth_header.data.drop 7⟩
    match jwtDecode (tokOf token) secret now with
    | DecodeResult.expired =>
      SessionCheck.reject 401
        ⟨"AuthenticationError", "INVALID_TOKEN", "Session expired, please refresh the page"⟩
    | DecodeResult.invalid =>
      SessionCheck.reject 401
        ⟨"AuthenticationError", "INVALID_TOKEN", "Invalid session token"⟩
    | DecodeResult.ok _ => SessionCheck.proceed
  else
    SessionCheck.reject 401
      ⟨"AuthenticationError", "MISSING_TOKEN", "Authorization header with Bearer token is required"⟩

/-- Body of an HTTP response produced by the handlers: raw audio bytes,
a JSON error object, or the `{"token": ...}` JSON of `get_session`. -/
inductive RespBody where
| audio (bytes : List Nat)
| jsonError (e : ErrorInfo)
| token (tok : JwtToken)
deriving DecidableEq

/-- An HTTP response as assembled by the handlers: status, the headers the
application code sets explicitly, and the body. -/
structure HttpResp where
  status : Nat
  headers : List (String × String)
  body : RespBody
deriving DecidableEq

/-- A Flask `jsonify(error_body), status` response: Flask serializes to
JSON and sets `Content-Type: application/json`. -/
def jsonResp (status : Nat) (e : ErrorInfo) : HttpResp :=
  ⟨status, [("Content-Type", "application/json")], RespBody.jsonError e⟩

/-- Success response of `synthesize_speech` (app.py lines 269-272):
`make_response(audio_bytes)` with `Content-Type: application/octet-stream`. -/
def audioResp (bytes : List Nat) : HttpResp :=
  ⟨200, [("Content-Type", "application/octet-stream")], RespBody.audio bytes⟩

/-- Success response of `get_session` (app.py line 198):
`jsonify({"token": token})`, status 200. -/
def tokenResp (tok : JwtToken) : HttpResp :=
  ⟨200, [("Content-Type", "application/json")], RespBody.token tok⟩

/-- app.py lines 295-318, `json_abort(status_code, error_code, message)`:
JSON error body with `type = "SynthesisError"` and explicit
`Content-Type: application/json`. -/
def json_abort (status : Nat) (code message : String) : HttpResp :=
  jsonResp status ⟨"SynthesisError", code, message⟩

/-- The token minted by `get_session` (app.py lines 193-197):
`jwt.encode({"iat": int(time.time()), "exp": int(time.time()) + JWT_EXPIRY},
SESSION_SECRET, algorithm="HS256")`. -/
def mkSessionToken (now : Nat) (secret : String) : JwtToken :=
  JwtToken.valid ⟨now, now + JWT_EXPIRY⟩ secret

/-- The 403 INVALID_NONCE response of `get_session` (app.py lines 185-191). -/
def invalidNonceResp : HttpResp :=
  jsonResp 403
    ⟨"AuthenticationError", "INVALID_NONCE", "Valid session nonce required. Please refresh the page."⟩

/-- app.py lines 179-198, `GET /api/session`.  `nonceHeader` is
`request.headers.get("X-Session-Nonce")` (`none` when absent); the guard
`if not nonce or not consume_nonce(nonce)` short-circuits, so
`consume_nonce` runs only when the header is a non-empty string.  Returns
the response together with the nonce store after the request. -/
def get_session (requireNonce : Bool) (nonceHeader : Option String) (s : Store)
    (now : Nat) (secret : String) : HttpResp × Store :=
  if requireNonce then
    match nonceHeader with
    | Option.none => (invalidNonceResp, s)
    | Option.some nonce =>
      if nonce = "" then (invalidNonceResp, s)
      else
        let r := consume_nonce nonce s now
        if r.1 then (tokenResp (mkSessionToken now secret), r.2)
        else (invalidNonceResp, r.2)
  else (tokenResp (mkSessionToken now secret), s)

/-- A Python value decoded from a JSON request body (`request.get_json()`). -/
inductive PyVal where
| pyNone
| pyBool (b : Bool)
| pyInt (n : Int)
| str (s : String)
| list (xs : List PyVal)
| dict (fields : List (String × PyVal))

/-- Python exception classes the handler's `except` clauses distinguish:
`ValueError` is caught separately (app.py line 274); every other
exception — `AttributeError` from `.get`/`.strip` on a non-dict/non-str,
or any provider-side error — falls to the generic `except Exception`
(app.py line 282). -/
inductive PyExc where
| valueError (msg : String)
| attributeError (msg : String)
| otherError (msg : String)
deriving DecidableEq

/-- Python `data.get('text', '')` (app.py line 233): on a dict, Python
`dict.get` returns the stored value when the key is present and the
default otherwise; on any non-dict value the attribute lookup `.get`
raises `AttributeError`. -/
def pyDictGet (v : PyVal) (k : String) (default : PyVal) : Except PyExc PyVal :=
  match v with
  | PyVal.dict fields => Except.ok ((fields.lookup k).getD default)
  | _ => Except.error (PyExc.attributeError "object has no attribute get")

/-- Python `str.strip()` on the character sequence: drop whitespace from
both ends. -/
def pyStripChars (l : List Char) : List Char :=
  ((l.dropWhile Char.isWhitespace).reverse.dropWhile Char.isWhitespace).reverse

/-- Python `.strip()` (app.py line 233): on a string, strips surrounding
whitespace; on any non-string value the attribute lookup raises
`AttributeError`. -/
def pyStrip (v : PyVal) : Except PyExc String :=
  match v with
  | PyVal.str s => Except.ok ⟨pyStripChars s.data⟩
  | _ => Except.error (PyExc.attributeError "object has no attribute strip")

/-- The `except` clauses of `synthesize_speech` (app.py lines 274-289):
`ValueError` is mapped to `json_abort(400, 'INVALID_REQUEST', str(ve))`,
every other exception to
`json_abort(500, 'SYNTHESIS_FAILED', 'Failed to synthesize speech')`. -/
def handleExc (e : PyExc) : HttpResp :=
  match e with
  | PyExc.valueError msg => json_abort 400 "INVALID_REQUEST" msg
  | PyExc.attributeError _ => json_abort 500 "SYNTHESIS_FAILED" "Failed to synthesize speech"
  | PyExc.otherError _ => json_abort 500 "SYNTHESIS_FAILED" "Failed to synthesize speech"

/-- The external provider (`client.speak.v1.audio.generate(text=..., model=...)`
followed by draining the generator): given text and model it either yields
the list of audio chunks or raises. -/
def Provider : Type := String → String → Except PyExc (List (List Nat))

/-- app.py lines 205-289, the body of `POST /api/text-to-speech` after the
session check.  `isJson` is `request.is_json`, `body` the decoded JSON
value, `modelParam` the optional `model` query parameter.  Mirrors the
source's `try` block: non-JSON body → 400 INVALID_REQUEST; `.get`/`.strip`
→ may raise; empty trimmed text → 400 INVALID_REQUEST; trimmed length
over 2000 → 400 TEXT_TOO_LONG; otherwise the provider is invoked and its
chunks concatenated.  Raised exceptions go through `handleExc`.  The
second component records whether the provider was called. -/
def synthesize_speech (isJson : Bool) (body : PyVal) (modelParam : Option String)
    (provider : Provider) : HttpResp × Bool :=
  if ¬ isJson then
    (json_abort 400 "INVALID_REQUEST" "Request body must be JSON", false)
  else
    match pyDictGet body "text" (PyVal.str "") with
    | Except.error e => (handleExc e, false)
    | Except.ok tv =>
      match pyStrip tv with
      | Except.error e => (handleExc e, false)
      | Except.ok text =>
        if text = "" then
          (json_abort 400 "INVALID_REQUEST" "Text field is required and cannot be empty", false)
        else
          let model := modelParam.getD DEFAULT_MODEL
          if text.length > 2000 then
            (json_abort 400 "TEXT_TOO_LONG" "Text exceeds maximum length of 2000 characters", false)
          else
            match provider text model with
            | Except.ok chunks => (audioResp chunks.flatten, true)
            | Except.error e => (handleExc e, true)

/-- An incoming HTTP request to the synthesis route: its header map
(Authorization, X-Session-Nonce, X-Request-Id, ... — whatever the caller
sent), whether the body is JSON, the decoded body, and the `model` query
parameter. -/
structure HttpRequest where
  headers : List (String × String)
  isJson : Bool
  body : PyVal
  queryModel : Option String

/-- The full `POST /api/text-to-speech` route: the `require_session`
decorator runs first (reading the Authorization header); on rejection the
handler — and hence the provider — is never reached. -/
def handle_text_to_speech (req : HttpRequest) (tokOf : String → JwtToken)
    (secret : String) (now : Nat) (provider : Provider) : HttpResp × Bool :=
  match require_session (req.headers.lookup "Authorization") tokOf secret now with
  | SessionCheck.reject status e => (jsonResp status e, false)
  | SessionCheck.proceed => synthesize_speech req.isJson req.body req.queryModel provider

/-- One operation on the shared nonce store, with the wall-clock time at
which it runs (`generate_nonce` additionally records the random nonce it
drew). -/
inductive NonceOp where
| gen (nonce : String) (now : Nat)
| consume (nonce : String) (now : Nat)
| cleanup (now : Nat)
deriving DecidableEq

/-- Effect of one nonce-store operation on the store. -/
def applyOp (s : Store) : NonceOp → Store
| NonceOp.gen n t => generate_nonce n s t
| NonceOp.consume n t => (consume_nonce n s t).2
| NonceOp.cleanup t => cleanup_nonces s t

/-- Effect of a sequence of nonce-store operations. -/
def runOps (s : Store) (ops : List NonceOp) : Store :=
  ops.foldl applyOp s

/-- Whether an operation is a `generate_nonce` call that (re-)creates the
nonce `n`. -/
def gensNonce (n : String) : NonceOp → Bool
| NonceOp.gen m _ => m = n
| _ => false

/-- Popping via `dict.pop` always leaves the store without an entry for the popped key
(whether or not one was present). -/
theorem consume_nonce_removes (n : String) (s : Store) (t : Nat) :
    (consume_nonce n s t).2 n = none := by
  unfold consume_nonce
  cases h : s n with
  | none => simp [h]
  | some e => simp [h]

/-- Consuming an absent nonce fails. -/
theorem consume_nonce_absent (n : String) (s : Store) (t : Nat) (h : s n = none) :
    (consume_nonce n s t).1 = false := by
  simp [consume_nonce, h]

/-- A store operation that is not a `generate_nonce` call for `n` cannot
bring an entry for `n` into existence. -/
theorem applyOp_absent (n : String) (s : Store) (op : NonceOp)
    (h : s n = none) (hg : gensNonce n op = false) : applyOp s op n = none := by
  cases op with
  | gen m t =>
    have hmn : ¬ n = m := fun he => by simp [gensNonce, he.symm] at hg
    simp [applyOp, generate_nonce, hmn, h]
  | consume m t =>
    simp only [applyOp, consume_nonce]
    cases hm : s m with
    | none => simpa using h
    | some e =>
      by_cases hnm : n = m
      · simp [hnm]
      · simp [hnm, h]
  | cleanup t => simp [applyOp, cleanup_nonces, h]

/-- Absence of `n` is preserved by any operation sequence that never
re-generates `n`. -/
theorem runOps_absent (n : String) (ops : List NonceOp) :
    ∀ s : Store, s n = none → (∀ op ∈ ops, gensNonce n op = false) →
    runOps s ops n = none := by
  induction ops with
  | nil => intro s h _; simpa [runOps] using h
  | cons op ops ih =>
    intro s h hops
    have h1 : applyOp s op n = none :=
      applyOp_absent n s op h (hops op (by simp))
    simpa [runOps, List.foldl] using ih (applyOp s op) h1 (fun o ho => hops o (by simp [ho]))

/-- C1: once `consume_nonce(n)` has returned true, the entry for `n` is
gone, and along any later sequence of store operations in which
`generate_nonce` never re-draws `n`, every later `consume_nonce(n)` call
returns false; consequently a second `GET /api/session` presenting the
same nonce is refused with 403 INVALID_NONCE, so the consumed nonce
cannot mint a second session token. -/
theorem consume_nonce_single_use (n : String) (s : Store) (t : Nat)
    (ops : List NonceOp) (t2 : Nat)
    (_hc : (consume_nonce n s t).1 = true)
    (hops : ∀ op ∈ ops, gensNonce n op = false) :
    (consume_nonce n (runOps (consume_nonce n s t).2 ops) t2).1 = false ∧
    (∀ secret : String, n ≠ "" →
      (get_session true (some n) (runOps (consume_nonce n s t).2 ops) t2 secret).1
        = invalidNonceResp) := by
  have h0 : (consume_nonce n s t).2 n = none := consume_nonce_removes n s t
  have h1 : runOps (consume_nonce n s t).2 ops n = none :=
    runOps_absent n ops _ h0 hops
  have h2 : (consume_nonce n (runOps (consume_nonce n s t).2 ops) t2).1 = false :=
    consume_nonce_absent n _ t2 h1
  refine ⟨h2, fun secret hn => ?_⟩
  simp [get_session, hn, h2]

/-- Concrete nonce store holding the single entry `"ab" -> 100`, used to
exercise the nonce-store theorems. -/
def store0 : Store := fun k => if k = "ab" then some 100 else none

/-- Witness for C1 at a concrete store and operation trace. -/
theorem consume_nonce_single_use_witness :
    (consume_nonce "ab" store0 0).1 = true ∧
    (consume_nonce "ab"
      (runOps (consume_nonce "ab" store0 0).2
        [NonceOp.gen "cd" 1, NonceOp.cleanup 2, NonceOp.consume "cd" 3]) 4).1 = false :=
  ⟨by decide,
   (consume_nonce_single_use "ab" store0 0
      [NonceOp.gen "cd" 1, NonceOp.cleanup 2, NonceOp.consume "cd" 3] 4
      (by decide) (by decide)).1⟩

/-- C5: `consume_nonce(n)` returns true exactly when `n` is present with
an expiry strictly in the future; the attempt always leaves the store
without an entry for `n` (so an expired entry is removed by the failed
attempt); and `cleanup_nonces` keeps an entry exactly when its expiry is
still in the future, so a swept nonce likewise fails consumption. -/
theorem consume_nonce_spec (n : String) (s : Store) (now : Nat) :
    ((consume_nonce n s now).1 = true ↔ ∃ e, s n = some e ∧ now < e) ∧
    (consume_nonce n s now).2 n = none ∧
    (∀ e, cleanup_nonces s now n = some e ↔ (s n = some e ∧ now < e)) := by
  refine ⟨?_, consume_nonce_removes n s now, fun e => ?_⟩
  · unfold consume_nonce
    cases h : s n with
    | none => simp
    | some e => simp [h]
  · unfold cleanup_nonces
    cases h : s n with
    | none => simp
    | some v =>
      constructor
      · intro he
        dsimp only at he
        by_cases hv : now ≥ v
        · rw [if_pos hv] at he
          cases he
        · rw [if_neg hv] at he
          injection he with hve
          subst hve
          exact ⟨rfl, by omega⟩
      · rintro ⟨hv2, hlt⟩
        injection hv2 with hve
        subst hve
        dsimp only
        rw [if_neg (by omega)]

/-- Witness for C5 at a concrete store: a live entry is consumed
successfully, the entry is removed, and the sweep keeps the live entry. -/
theorem consume_nonce_spec_witness :
    (consume_nonce "ab" store0 3).1 = true ∧
    (consume_nonce "ab" store0 3).2 "ab" = none ∧
    cleanup_nonces store0 3 "ab" = some 100 := by
  have h := consume_nonce_spec "ab" store0 3
  exact ⟨h.1.mpr ⟨100, by decide, by decide⟩, h.2.1, (h.2.2 100).mpr ⟨by decide, by decide⟩⟩

/-- A character list is a prefix of itself followed by anything. -/
theorem isPrefixOf_append_self (l t : List Char) : l.isPrefixOf (l ++ t) = true := by
  induction l with
  | nil => simp [List.isPrefixOf]
  | cons a l ih => simp [List.isPrefixOf, ih]

/-- The `startswith("Bearer ")` test succeeds on a well-formed bearer
header. -/
theorem bearer_header_starts (t : String) :
    "Bearer ".data.isPrefixOf ("Bearer " ++ t).data = true := by
  cases t with
  | mk l => exact isPrefixOf_append_self "Bearer ".data l

/-- The `[7:]` slice of a well-formed bearer header recovers the token. -/
theorem bearer_drop (t : String) : (("Bearer " ++ t).data).drop 7 = t.data := by
  cases t with
  | mk l =>
    have h7 : ("Bearer ".data).length = 7 := rfl
    calc ("Bearer ".data ++ l).drop 7
        = ("Bearer ".data ++ l).drop ("Bearer ".data).length := by rw [h7]
      _ = l := List.drop_left _ _

/-- On a header of the exact form `Bearer <token>`, `require_session`
reduces to the decode of the token. -/
theorem require_session_bearer (t : String) (tokOf : String → JwtToken)
    (secret : String) (now : Nat) :
    require_session (some ("Bearer " ++ t)) tokOf secret now =
      (match jwtDecode (tokOf t) secret now with
       | DecodeResult.expired =>
         SessionCheck.reject 401
           ⟨"AuthenticationError", "INVALID_TOKEN", "Session expired, please refresh the page"⟩
       | DecodeResult.invalid =>
         SessionCheck.reject 401
           ⟨"AuthenticationError", "INVALID_TOKEN", "Invalid session token"⟩
       | DecodeResult.ok _ => SessionCheck.proceed) := by
  unfold require_session
  simp only [Option.getD_some]
  have hmk : (⟨(("Bearer " ++ t).data).drop 7⟩ : String) = t := by
    rw [bearer_drop]
  rw [hmk]
  exact if_pos (bearer_header_starts t)

/-- C2: a bearer token is accepted by `require_session` (the wrapped
handler runs) exactly when its HS256 signature was produced with the
current server secret and the current time is strictly before the token's
embedded expiry; in particular a token signed with any other secret is
rejected as INVALID_TOKEN regardless of its expiry. -/
theorem require_session_accept_iff (tokOf : String → JwtToken) (tokStr : String)
    (p : Payload) (sk secret : String) (now : Nat)
    (ht : tokOf tokStr = JwtToken.valid p sk) :
    (require_session (some ("Bearer " ++ tokStr)) tokOf secret now = SessionCheck.proceed
      ↔ (sk = secret ∧ now < p.exp)) ∧
    (sk ≠ secret →
      require_session (some ("Bearer " ++ tokStr)) tokOf secret now
        = SessionCheck.reject 401
            ⟨"AuthenticationError", "INVALID_TOKEN", "Invalid session token"⟩) := by
  rw [require_session_bearer, ht]
  unfold jwtDecode
  constructor
  · by_cases hs : sk = secret
    · subst hs
      by_cases he : p.exp ≤ now
      · simp [he]
      · simp [he]
        omega
    · simp [hs]
  · intro hsk
    simp [hsk]

/-- Interpretation of token strings used by the concrete witnesses:
`"tok"` is a live token signed with `"sec"`, `"other"` a token signed
with the foreign secret `"wrong"`, `"old"` an expired token signed with
`"sec"`, and everything else is malformed. -/
def tokOf0 : String → JwtToken := fun s =>
  if s = "tok" then JwtToken.valid ⟨0, 100⟩ "sec"
  else if s = "other" then JwtToken.valid ⟨0, 100⟩ "wrong"
  else if s = "old" then JwtToken.valid ⟨0, 3⟩ "sec"
  else JwtToken.garbage s

/-- Witness for C2: the live token signed with the server secret is
accepted at time 5. -/
theorem require_session_accept_iff_witness :
    require_session (some ("Bearer " ++ "tok")) tokOf0 "sec" 5 = SessionCheck.proceed :=
  ((require_session_accept_iff tokOf0 "tok" ⟨0, 100⟩ "sec" "sec" 5 (by decide)).1).mpr
    ⟨rfl, by decide⟩

/-- C6: the verifier's failure taxonomy.  An absent Authorization header
is rejected 401 MISSING_TOKEN; a malformed token and a token signed with
a different secret are rejected 401 INVALID_TOKEN with message
"Invalid session token"; an expired token signed with the server secret
is rejected 401 with the same INVALID_TOKEN code but the distinct message
"Session expired, please refresh the page". -/
theorem require_session_error_taxonomy (tokOf : String → JwtToken)
    (secret : String) (now : Nat) :
    (require_session Option.none tokOf secret now
      = SessionCheck.reject 401
          ⟨"AuthenticationError", "MISSING_TOKEN", "Authorization header with Bearer token is required"⟩) ∧
    (∀ t raw, tokOf t = JwtToken.garbage raw →
      require_session (some ("Bearer " ++ t)) tokOf secret now
        = SessionCheck.reject 401
            ⟨"AuthenticationError", "INVALID_TOKEN", "Invalid session token"⟩) ∧
    (∀ t p sk, tokOf t = JwtToken.valid p sk → sk ≠ secret →
      require_session (some ("Bearer " ++ t)) tokOf secret now
        = SessionCheck.reject 401
            ⟨"AuthenticationError", "INVALID_TOKEN", "Invalid session token"⟩) ∧
    (∀ t p, tokOf t = JwtToken.valid p secret → p.exp ≤ now →
      require_session (some ("Bearer " ++ t)) tokOf secret now
        = SessionCheck.reject 401
            ⟨"AuthenticationError", "INVALID_TOKEN", "Session expired, please refresh the page"⟩) := by
  refine ⟨?_, ?_, ?_, ?_⟩
  · rfl
  · intro t raw hraw
    rw [require_session_bearer, hraw]
    rfl
  · intro t p sk hval hsk
    exact (require_session_accept_iff tokOf t p sk secret now hval).2 hsk
  · intro t p hval hexp
    rw [require_session_bearer, hval]
    simp [jwtDecode, hexp]

/-- Witness for C6 exercising all four taxonomy branches at concrete
inputs. -/
theorem require_session_error_taxonomy_witness :
    (require_session Option.none tokOf0 "sec" 5
      = SessionCheck.reject 401
          ⟨"AuthenticationError", "MISSING_TOKEN", "Authorization header with Bearer token is required"⟩) ∧
    (require_session (some ("Bearer " ++ "bad")) tokOf0 "sec" 5
      = SessionCheck.reject 401
          ⟨"AuthenticationError", "INVALID_TOKEN", "Invalid session token"⟩) ∧
    (require_session (some ("Bearer " ++ "other")) tokOf0 "sec" 5
      = SessionCheck.reject 401
          ⟨"AuthenticationError", "INVALID_TOKEN", "Invalid session token"⟩) ∧
    (require_session (some ("Bearer " ++ "old")) tokOf0 "sec" 5
      = SessionCheck.reject 401
          ⟨"AuthenticationError", "INVALID_TOKEN", "Session expired, please refresh the page"⟩) :=
  ⟨(require_session_error_taxonomy tokOf0 "sec" 5).1,
   (require_session_error_taxonomy tokOf0 "sec" 5).2.1 "bad" "bad" (by decide),
   (require_session_error_taxonomy tokOf0 "sec" 5).2.2.1 "other" ⟨0, 100⟩ "wrong"
     (by decide) (by decide),
   (require_session_error_taxonomy tokOf0 "sec" 5).2.2.2 "old" ⟨0, 3⟩
     (by decide) (by decide)⟩

/-- C9: an Authorization header that is present but does not begin with
`Bearer ` (a different scheme, or a bare token) is rejected with 401 and
code MISSING_TOKEN — the same rejection as a wholly absent header, never
INVALID_TOKEN. -/
theorem require_session_non_bearer (v : String) (tokOf : String → JwtToken)
    (secret : String) (now : Nat)
    (h : "Bearer ".data.isPrefixOf v.data = false) :
    require_session (some v) tokOf secret now
      = SessionCheck.reject 401
          ⟨"AuthenticationError", "MISSING_TOKEN", "Authorization header with Bearer token is required"⟩ := by
  unfold require_session
  simp [h]

/-- Witness for C9: a Basic-scheme header is rejected as MISSING_TOKEN. -/
theorem require_session_non_bearer_witness :
    require_session (some "Basic abc") tokOf0 "sec" 5
      = SessionCheck.reject 401
          ⟨"AuthenticationError", "MISSING_TOKEN", "Authorization header with Bearer token is required"⟩ :=
  require_session_non_bearer "Basic abc" tokOf0 "sec" 5 (by decide)

/-- A string built from an explicit character list is empty exactly when
the list is. -/
theorem string_mk_eq_empty (l : List Char) : (⟨l⟩ : String) = "" ↔ l = [] := by
  constructor
  · intro h
    have := congrArg String.data h
    simpa using this
  · intro h
    rw [h]

/-- C3: `GET /api/session` requires a nonce exactly when an external
session secret was explicitly configured (`REQUIRE_NONCE` is the
truthiness of the `SESSION_SECRET` environment variable).  In nonce mode
an absent header, an empty header, and a failed `consume_nonce` each
yield the 403 INVALID_NONCE error and no token; a non-empty header whose
consumption succeeds yields the signed token; with nonce mode off the
token is issued unconditionally and the store is untouched. -/
theorem get_session_nonce_gate (env : Option String) (hdr : Option String)
    (s : Store) (now : Nat) (secret : String) :
    (REQUIRE_NONCE_of env = true ↔ ∃ sv, env = some sv ∧ sv ≠ "") ∧
    ((get_session true Option.none s now secret).1 = invalidNonceResp) ∧
    ((get_session true (some "") s now secret) = (invalidNonceResp, s)) ∧
    (∀ n, n ≠ "" → (consume_nonce n s now).1 = false →
      (get_session true (some n) s now secret)
        = (invalidNonceResp, (consume_nonce n s now).2)) ∧
    (∀ n, n ≠ "" → (consume_nonce n s now).1 = true →
      (get_session true (some n) s now secret)
        = (tokenResp (mkSessionToken now secret), (consume_nonce n s now).2)) ∧
    ((get_session false hdr s now secret) = (tokenResp (mkSessionToken now secret), s)) := by
  refine ⟨?_, rfl, rfl, ?_, ?_, rfl⟩
  · cases env with
    | none => simp [REQUIRE_NONCE_of]
    | some sv =>
      simp only [REQUIRE_NONCE_of]
      constructor
      · intro h
        exact ⟨sv, rfl, by simpa using h⟩
      · rintro ⟨sv2, hv, hne⟩
        injection hv with hv2
        subst hv2
        simpa using hne
  · intro n hn hc
    simp [get_session, hn, hc]
  · intro n hn hc
    simp [get_session, hn, hc]

/-- Witness for C3 on a concrete store: absent header, empty header, an
unknown nonce, a live nonce, and dev mode. -/
theorem get_session_nonce_gate_witness :
    REQUIRE_NONCE_of (some "k") = true ∧
    (get_session true Option.none store0 3 "sec").1 = invalidNonceResp ∧
    (get_session true (some "") store0 3 "sec") = (invalidNonceResp, store0) ∧
    (get_session true (some "zz") store0 3 "sec")
      = (invalidNonceResp, (consume_nonce "zz" store0 3).2) ∧
    (get_session true (some "ab") store0 3 "sec")
      = (tokenResp (mkSessionToken 3 "sec"), (consume_nonce "ab" store0 3).2) ∧
    (get_session false Option.none store0 3 "sec")
      = (tokenResp (mkSessionToken 3 "sec"), store0) :=
  ⟨(get_session_nonce_gate (some "k") Option.none store0 3 "sec").1.mpr
      ⟨"k", rfl, by decide⟩,
   (get_session_nonce_gate (some "k") Option.none store0 3 "sec").2.1,
   (get_session_nonce_gate (some "k") Option.none store0 3 "sec").2.2.1,
   (get_session_nonce_gate (some "k") Option.none store0 3 "sec").2.2.2.1 "zz"
     (by decide) (by decide),
   (get_session_nonce_gate (some "k") Option.none store0 3 "sec").2.2.2.2.1 "ab"
     (by decide) (by decide),
   (get_session_nonce_gate (some "k") Option.none store0 3 "sec").2.2.2.2.2⟩

/-- The length of a string built from an explicit character list. -/
theorem string_mk_length (l : List Char) : (⟨l⟩ : String).length = l.length := rfl

/-- C4: validation order of the synthesis endpoint.  A non-JSON body is
rejected 400 INVALID_REQUEST; then a missing `text` field, or a `text`
field that strips to the empty string, is rejected 400 INVALID_REQUEST;
then text whose stripped form exceeds 2000 characters is rejected 400
TEXT_TOO_LONG; in every one of these failure cases the provider-called
flag is false for any provider. -/
theorem synthesize_validation_order (body : PyVal) (mp : Option String)
    (provider : Provider) :
    (synthesize_speech false body mp provider
      = (json_abort 400 "INVALID_REQUEST" "Request body must be JSON", false)) ∧
    (∀ fields, fields.lookup "text" = Option.none →
      synthesize_speech true (PyVal.dict fields) mp provider
        = (json_abort 400 "INVALID_REQUEST" "Text field is required and cannot be empty", false)) ∧
    (∀ fields txt, fields.lookup "text" = some (PyVal.str txt) →
      pyStripChars txt.data = [] →
      synthesize_speech true (PyVal.dict fields) mp provider
        = (json_abort 400 "INVALID_REQUEST" "Text field is required and cannot be empty", false)) ∧
    (∀ fields txt, fields.lookup "text" = some (PyVal.str txt) →
      (pyStripChars txt.data).length > 2000 →
      synthesize_speech true (PyVal.dict fields) mp provider
        = (json_abort 400 "TEXT_TOO_LONG" "Text exceeds maximum length of 2000 characters", false)) := by
  refine ⟨rfl, ?_, ?_, ?_⟩
  · intro fields hl
    simp [synthesize_speech, pyDictGet, hl, pyStrip, pyStripChars]
  · intro fields txt hl hstrip
    simp [synthesize_speech, pyDictGet, hl, pyStrip, hstrip]
  · intro fields txt hl hlen
    have hne : pyStripChars txt.data ≠ [] := by
      intro h0
      rw [h0] at hlen
      simp at hlen
    have hne2 : (⟨pyStripChars txt.data⟩ : String) ≠ "" := by
      intro h0
      exact hne ((string_mk_eq_empty _).mp h0)
    simp [synthesize_speech, pyDictGet, hl, pyStrip, hne2, string_mk_length, hlen]

/-- The concrete provider used by witnesses: always succeeds with two
audio chunks. -/
def provider0 : Provider := fun _ _ => Except.ok [[1, 2], [3]]

/-- Stripping leading and trailing whitespace leaves a run of `'a'`
characters unchanged. -/
theorem dropWhile_replicate_a (n : Nat) :
    (List.replicate n 'a').dropWhile Char.isWhitespace = List.replicate n 'a' := by
  cases n with
  | zero => rfl
  | succ m =>
    rw [List.replicate_succ, List.dropWhile_cons]
    simp

/-- Stripping via `pyStripChars` is the identity on a run of `'a'` characters. -/
theorem pyStripChars_replicate (n : Nat) :
    pyStripChars (List.replicate n 'a') = List.replicate n 'a' := by
  unfold pyStripChars
  rw [dropWhile_replicate_a, List.reverse_replicate, dropWhile_replicate_a,
    List.reverse_replicate]

/-- Witness for C4: a non-JSON body, a body without `text`, a
whitespace-only text, and a 2001-character text each fail as specified. -/
theorem synthesize_validation_order_witness :
    (synthesize_speech false (PyVal.str "x") Option.none provider0
      = (json_abort 400 "INVALID_REQUEST" "Request body must be JSON", false)) ∧
    (synthesize_speech true (PyVal.dict []) Option.none provider0
      = (json_abort 400 "INVALID_REQUEST" "Text field is required and cannot be empty", false)) ∧
    (synthesize_speech true (PyVal.dict [("text", PyVal.str "  ")]) Option.none provider0
      = (json_abort 400 "INVALID_REQUEST" "Text field is required and cannot be empty", false)) ∧
    (synthesize_speech true
        (PyVal.dict [("text", PyVal.str ⟨List.replicate 2001 'a'⟩)]) Option.none provider0
      = (json_abort 400 "TEXT_TOO_LONG" "Text exceeds maximum length of 2000 characters", false)) :=
  ⟨(synthesize_validation_order (PyVal.str "x") Option.none provider0).1,
   (synthesize_validation_order (PyVal.str "x") Option.none provider0).2.1 [] rfl,
   (synthesize_validation_order (PyVal.str "x") Option.none provider0).2.2.1
     [("text", PyVal.str "  ")] "  " rfl (by decide),
   (synthesize_validation_order (PyVal.str "x") Option.none provider0).2.2.2
     [("text", PyVal.str ⟨List.replicate 2001 'a'⟩)] ⟨List.replicate 2001 'a'⟩ rfl
     (by rw [show (⟨List.replicate 2001 'a'⟩ : String).data = List.replicate 2001 'a' from rfl,
             pyStripChars_replicate, List.length_replicate]
         norm_num)⟩

/-- Counterexample for C7: a provider error whose message plainly
indicates a too-long condition is NOT remapped to 400 TEXT_TOO_LONG — the
generic `except Exception` turns it into 500 SYNTHESIS_FAILED.  No string
match on the provider's error text exists in `synthesize_speech`. -/
theorem synthesize_no_toolong_remap_cex :
    (synthesize_speech true (PyVal.dict [("text", PyVal.str "hi")]) Option.none
        (fun _ _ => Except.error
          (PyExc.otherError "text is too long: maximum of 2000 characters"))
      = (json_abort 500 "SYNTHESIS_FAILED" "Failed to synthesize speech", true)) ∧
    (json_abort 500 "SYNTHESIS_FAILED" "Failed to synthesize speech").status ≠ 400 := by
  constructor
  · rfl
  · decide

/-- C7 (amended): on a valid request, when the provider raises, the
endpoint returns 500 SYNTHESIS_FAILED for every exception except a
`ValueError`, which the dedicated `except ValueError` clause maps to
400 INVALID_REQUEST carrying the exception's own message; the provider
was called in both cases, and no inspection of the message text occurs. -/
theorem synthesize_provider_error_mapping (text : String) (mp : Option String)
    (e : PyExc)
    (hid : pyStripChars text.data = text.data)
    (hne : text ≠ "")
    (hlen : text.length ≤ 2000) :
    (∀ m, e = PyExc.valueError m →
      synthesize_speech true (PyVal.dict [("text", PyVal.str text)]) mp
          (fun _ _ => Except.error e)
        = (json_abort 400 "INVALID_REQUEST" m, true)) ∧
    ((∀ m, e ≠ PyExc.valueError m) →
      synthesize_speech true (PyVal.dict [("text", PyVal.str text)]) mp
          (fun _ _ => Except.error e)
        = (json_abort 500 "SYNTHESIS_FAILED" "Failed to synthesize speech", true)) := by
  have hkey : ([("text", PyVal.str text)].lookup "text") = some (PyVal.str text) := rfl
  have hstr : (⟨pyStripChars text.data⟩ : String) = text := by rw [hid]
  have hlen2 : ¬ text.length > 2000 := by omega
  constructor
  · rintro m rfl
    simp [synthesize_speech, pyDictGet, hkey, pyStrip, hstr, hne, hlen2, handleExc]
  · intro hm
    cases e with
    | valueError m => exact absurd rfl (hm m)
    | attributeError m =>
      simp [synthesize_speech, pyDictGet, hkey, pyStrip, hstr, hne, hlen2, handleExc]
    | otherError m =>
      simp [synthesize_speech, pyDictGet, hkey, pyStrip, hstr, hne, hlen2, handleExc]

/-- Witness for C7 (amended): a ValueError becomes 400 INVALID_REQUEST
with its message; a generic provider error becomes 500 SYNTHESIS_FAILED. -/
theorem synthesize_provider_error_mapping_witness :
    (synthesize_speech true (PyVal.dict [("text", PyVal.str "hi")]) Option.none
        (fun _ _ => Except.error (PyExc.valueError "boom"))
      = (json_abort 400 "INVALID_REQUEST" "boom", true)) ∧
    (synthesize_speech true (PyVal.dict [("text", PyVal.str "hi")]) Option.none
        (fun _ _ => Except.error (PyExc.otherError "network down"))
      = (json_abort 500 "SYNTHESIS_FAILED" "Failed to synthesize speech", true)) :=
  ⟨(synthesize_provider_error_mapping "hi" Option.none (PyExc.valueError "boom")
      (by decide) (by decide) (by decide)).1 "boom" rfl,
   (synthesize_provider_error_mapping "hi" Option.none (PyExc.otherError "network down")
      (by decide) (by decide) (by decide)).2 (fun m h => PyExc.noConfusion h)⟩

/-- C10: on an authenticated JSON request whose `text` field exists but is
not a string, or whose body is not a JSON object at all, the
`.strip()`/`.get` attribute access raises and the generic handler returns
500 SYNTHESIS_FAILED (not 400 INVALID_REQUEST); the provider is never
called. -/
theorem synthesize_nonstring_text_500 (mp : Option String) (provider : Provider) :
    (∀ fields v, fields.lookup "text" = some v → (∀ sv, v ≠ PyVal.str sv) →
      synthesize_speech true (PyVal.dict fields) mp provider
        = (json_abort 500 "SYNTHESIS_FAILED" "Failed to synthesize speech", false)) ∧
    (∀ body, (∀ fields, body ≠ PyVal.dict fields) →
      synthesize_speech true body mp provider
        = (json_abort 500 "SYNTHESIS_FAILED" "Failed to synthesize speech", false)) := by
  constructor
  · intro fields v hl hv
    have hget : pyDictGet (PyVal.dict fields) "text" (PyVal.str "") = Except.ok v := by
      simp [pyDictGet, hl]
    have hstrip : pyStrip v
        = Except.error (PyExc.attributeError "object has no attribute strip") := by
      cases v with
      | str sv => exact absurd rfl (hv sv)
      | pyNone => rfl
      | pyBool b => rfl
      | pyInt n => rfl
      | list xs => rfl
      | dict f2 => rfl
    simp [synthesize_speech, hget, hstrip, handleExc]
  · intro body hb
    have hget : pyDictGet body "text" (PyVal.str "")
        = Except.error (PyExc.attributeError "object has no attribute get") := by
      cases body with
      | dict f2 => exact absurd rfl (hb f2)
      | pyNone => rfl
      | pyBool b => rfl
      | pyInt n => rfl
      | str s2 => rfl
      | list xs => rfl
    simp [synthesize_speech, hget, handleExc]

/-- Witness for C10: an integer `text` field and a JSON-array body each
yield 500 SYNTHESIS_FAILED without calling the provider. -/
theorem synthesize_nonstring_text_500_witness :
    (synthesize_speech true (PyVal.dict [("text", PyVal.pyInt 5)]) Option.none provider0
      = (json_abort 500 "SYNTHESIS_FAILED" "Failed to synthesize speech", false)) ∧
    (synthesize_speech true (PyVal.list []) Option.none provider0
      = (json_abort 500 "SYNTHESIS_FAILED" "Failed to synthesize speech", false)) :=
  ⟨(synthesize_nonstring_text_500 Option.none provider0).1 [("text", PyVal.pyInt 5)]
     (PyVal.pyInt 5) rfl (fun _sv h => PyVal.noConfusion h),
   (synthesize_nonstring_text_500 Option.none provider0).2 (PyVal.list [])
     (fun _fields h => PyVal.noConfusion h)⟩

/-- Every error path of the synthesis handler sets only the JSON content
type header. -/
theorem handleExc_headers (e : PyExc) :
    (handleExc e).headers = [("Content-Type", "application/json")] := by
  cases e <;> rfl

/-- Every response assembled by `synthesize_speech` carries exactly one
header, the Content-Type it sets explicitly. -/
theorem synthesize_headers (isJson : Bool) (body : PyVal) (mp : Option String)
    (provider : Provider) :
    ((synthesize_speech isJson body mp provider).1.headers
       = [("Content-Type", "application/json")]) ∨
    ((synthesize_speech isJson body mp provider).1.headers
       = [("Content-Type", "application/octet-stream")]) := by
  unfold synthesize_speech
  dsimp only
  repeat' split
  all_goals first
    | (left; rfl)
    | (right; rfl)
    | (left; exact handleExc_headers _)

/-- C8 (amended): the service never echoes `X-Request-Id`; the response of
the synthesis route — success or error, including the auth rejections —
carries no such header, whatever the request's headers contain. -/
theorem handle_no_request_id_echo (req : HttpRequest) (tokOf : String → JwtToken)
    (secret : String) (now : Nat) (provider : Provider) :
    ((handle_text_to_speech req tokOf secret now provider).1.headers).lookup "X-Request-Id"
      = Option.none := by
  unfold handle_text_to_speech
  cases hrs : require_session (req.headers.lookup "Authorization") tokOf secret now with
  | reject status e => simp [hrs, jsonResp]
  | proceed =>
    rcases synthesize_headers req.isJson req.body req.queryModel provider with h | h
    · simp [hrs, h]
    · simp [hrs, h]

/-- A concrete request that carries an `X-Request-Id` header. -/
def req0 : HttpRequest :=
  ⟨[("X-Request-Id", "abc")], true, PyVal.dict [("text", PyVal.str "hi")], Option.none⟩

/-- Counterexample for C8: the request carries `X-Request-Id: abc` but the
response does not echo it (no such response header exists). -/
theorem x_request_id_not_echoed_cex :
    req0.headers.lookup "X-Request-Id" = some "abc" ∧
    ((handle_text_to_speech req0 tokOf0 "sec" 5 provider0).1.headers).lookup "X-Request-Id"
      ≠ some "abc" := by
  constructor
  · rfl
  · decide
